import Mathlib

/-!
Shallow embedding of the job-lifecycle core of the Vision-Design repository:
payload construction for the Flux image backend (`FluxClient.generate_image`),
status polling (`FluxClient.wait_for_completion`), the synchronous coordinator
(`FluxClient.generate_and_wait`), artifact download (`FluxClient.download_image`),
the two-attempt multipart submission of the video backend
(`Sora.create_video_generation_job_with_images`), and the pipeline dispatcher.

Python dictionaries are modelled as association lists of `PyVal` values in
insertion order; an absent key is a missing entry, a key whose value is
Python `None` is an entry with value `PyVal.none`.  HTTP traffic is modelled
by passing an explicit network oracle and, where a claim needs it, returning
the trace of requests made.
-/

namespace VisionDesign

/-- A Python value as it appears in the request payloads: `None`, a string,
an integer, a boolean, or a float (modelled as a rational). -/
inductive PyVal where
  | none
  | str (s : String)
  | int (n : Int)
  | bool (b : Bool)
  | rat (q : Rat)
deriving DecidableEq

/-- Python `dict.get(k, default)`: the stored value when the key is present
(even when that value is `None`), the default otherwise. -/
def kwget (kwargs : List (String × PyVal)) (k : String) (default : PyVal) : PyVal :=
  match kwargs.lookup k with
  | some v => v
  | Option.none => default

/-- Python truthiness of a `PyVal` (`if kwargs.get(...)`). -/
def PyVal.truthy : PyVal → Bool
  | .none => false
  | .str s => s != ""
  | .int n => n != 0
  | .bool b => b
  | .rat q => q != 0

/-- The `{k: v for k, v in payload.items() if v is not None}` strip of
`FluxClient.generate_image` (line 115). -/
def stripNone (payload : List (String × PyVal)) : List (String × PyVal) :=
  payload.filter (fun kv => decide (kv.2 ≠ PyVal.none))

/-- Error raised by `FluxClient.generate_image`: `ValueError` on an
unsupported model name.  (No other validation error exists in the builder.) -/
inductive FluxError where
  | invalidModel (model : String)
deriving DecidableEq

/-- The `flux-pro` branch of the payload (lines 66-80): base `prompt` plus
the FLUX.1 [pro] parameters with their defaults. -/
def fluxProFields (prompt : String) (kwargs : List (String × PyVal)) :
    List (String × PyVal) :=
  [("prompt", PyVal.str prompt),
   ("width", kwget kwargs "width" (PyVal.int 1024)),
   ("height", kwget kwargs "height" (PyVal.int 1024)),
   ("prompt_upsampling", kwget kwargs "prompt_upsampling" (PyVal.bool false)),
   ("seed", kwget kwargs "seed" PyVal.none),
   ("safety_tolerance", kwget kwargs "safety_tolerance" (PyVal.int 2)),
   ("output_format", kwget kwargs "output_format" (PyVal.str "jpeg"))]

/-- The `flux-pro-ultra` branch of the payload (lines 82-93). -/
def fluxUltraFields (prompt : String) (kwargs : List (String × PyVal)) :
    List (String × PyVal) :=
  [("prompt", PyVal.str prompt),
   ("aspect_ratio", kwget kwargs "aspect_ratio" (PyVal.str "16:9")),
   ("prompt_upsampling", kwget kwargs "prompt_upsampling" (PyVal.bool false)),
   ("seed", kwget kwargs "seed" PyVal.none),
   ("safety_tolerance", kwget kwargs "safety_tolerance" (PyVal.int 2)),
   ("output_format", kwget kwargs "output_format" (PyVal.str "jpeg")),
   ("raw", kwget kwargs "raw" (PyVal.bool false)),
   ("image_prompt", kwget kwargs "image_prompt" PyVal.none),
   ("image_prompt_strength", kwget kwargs "image_prompt_strength" (PyVal.rat (1/10)))]

/-- The `flux-kontext` branch of the payload (lines 95-106); `image_prompt`
is fetched with `kwargs.get("image_prompt")`, i.e. default `None`. -/
def fluxKontextFields (prompt : String) (kwargs : List (String × PyVal)) :
    List (String × PyVal) :=
  [("prompt", PyVal.str prompt),
   ("width", kwget kwargs "width" (PyVal.int 1024)),
   ("height", kwget kwargs "height" (PyVal.int 1024)),
   ("prompt_upsampling", kwget kwargs "prompt_upsampling" (PyVal.bool false)),
   ("seed", kwget kwargs "seed" PyVal.none),
   ("safety_tolerance", kwget kwargs "safety_tolerance" (PyVal.int 2)),
   ("output_format", kwget kwargs "output_format" (PyVal.str "jpeg")),
   ("image_prompt", kwget kwargs "image_prompt" PyVal.none),
   ("image_prompt_strength", kwget kwargs "image_prompt_strength" (PyVal.rat (1/10)))]

/-- The webhook keys appended when truthy (lines 108-112). -/
def webhookFields (kwargs : List (String × PyVal)) : List (String × PyVal) :=
  (if (kwget kwargs "webhook_url" PyVal.none).truthy then
      [("webhook_url", kwget kwargs "webhook_url" PyVal.none)]
    else []) ++
  (if (kwget kwargs "webhook_secret" PyVal.none).truthy then
      [("webhook_secret", kwget kwargs "webhook_secret" PyVal.none)]
    else [])

/-- The payload construction of `FluxClient.generate_image` (lines 52-115): the
model-specific field set, webhook keys, then the `None`-strip.  The only
failure is `ValueError` on an unrecognized model. -/
def generate_image (prompt : String) (model : String)
    (kwargs : List (String × PyVal)) :
    Except FluxError (List (String × PyVal)) :=
  if model = "flux-pro" then
    Except.ok (stripNone (fluxProFields prompt kwargs ++ webhookFields kwargs))
  else if model = "flux-pro-ultra" then
    Except.ok (stripNone (fluxUltraFields prompt kwargs ++ webhookFields kwargs))
  else if model = "flux-kontext" then
    Except.ok (stripNone (fluxKontextFields prompt kwargs ++ webhookFields kwargs))
  else
    Except.error (FluxError.invalidModel model)

/-! ## Status polling: `FluxClient.wait_for_completion` (lines 158-186)

Time is modelled discretely: a status query takes no time and each
`time.sleep(poll_interval)` advances the clock by `poll_interval` seconds.
The status backend is a stub `Nat → dict` giving the response to the n-th
query (counted from 0).  The loop is driven by structural fuel; with a
positive `poll_interval` the fuel chosen by `wait_for_completion` is never
exhausted (`diverged` is unreachable there), mirroring that the Python loop
terminates whenever the clock advances each iteration. -/

/-- Outcome of the polling loop: `Ready` returns the status dict; `Error`
raises with the backend error detail (`status.get("error", "Unknown error")`);
the `while` guard failing raises `TimeoutError`. -/
inductive WaitResult where
  | ready (status : List (String × PyVal))
  | backendError (detail : PyVal)
  | timedOut
  | diverged
deriving DecidableEq

/-- Result of a polling run together with the number of status queries made
and the model clock (seconds elapsed) at return time. -/
structure WaitOutcome where
  result : WaitResult
  queries : Nat
  elapsed : Int
deriving DecidableEq

/-- One turn of the `while time.time() - start_time < max_wait_time` loop:
`e` is the elapsed clock, `n` the number of queries already made. -/
def wait_aux (stub : Nat → List (String × PyVal)) (max_wait poll_interval : Int) :
    Nat → Int → Nat → WaitOutcome
  | fuel, e, n =>
    if e < max_wait then
      match fuel with
      | 0 => ⟨WaitResult.diverged, n, e⟩
      | f + 1 =>
        let st := stub n
        if kwget st "status" PyVal.none = PyVal.str "Ready" then
          ⟨WaitResult.ready st, n + 1, e⟩
        else if kwget st "status" PyVal.none = PyVal.str "Error" then
          ⟨WaitResult.backendError (kwget st "error" (PyVal.str "Unknown error")), n + 1, e⟩
        else
          wait_aux stub max_wait poll_interval f (e + poll_interval) (n + 1)
    else ⟨WaitResult.timedOut, n, e⟩

/-- Embeds `FluxClient.wait_for_completion(task_id, max_wait_time, poll_interval)`.
The fuel `max_wait_time.toNat + 1` suffices for every positive
`poll_interval` (see `wait_aux_ne_diverged`). -/
def wait_for_completion (stub : Nat → List (String × PyVal))
    (max_wait_time poll_interval : Int) : WaitOutcome :=
  wait_aux stub max_wait_time poll_interval (max_wait_time.toNat + 1) 0 0

/-- A status dict on which the loop keeps polling: neither `Ready` nor
`Error`. -/
def nonterminalStatus (st : List (String × PyVal)) : Prop :=
  kwget st "status" PyVal.none ≠ PyVal.str "Ready" ∧
  kwget st "status" PyVal.none ≠ PyVal.str "Error"

instance (st : List (String × PyVal)) : Decidable (nonterminalStatus st) := by
  unfold nonterminalStatus; infer_instance

/-! ## Coordinator: `FluxClient.generate_and_wait` (lines 188-208) -/

/-- Result of `generate_and_wait`: either the defensive
`Exception("No task ID returned from Flux API")` or the polling outcome. -/
inductive GenWaitResult where
  | noTaskId
  | waited (o : WaitOutcome)
deriving DecidableEq

/-- Embeds `FluxClient.generate_and_wait` after the submission call: `resp` is the
submission response dict, `stub` the status backend.  `task_id =
result.get("id")`; `if not task_id` raises before any polling.  The second
component is the number of status queries made. -/
def generate_and_wait (resp : List (String × PyVal))
    (stub : Nat → List (String × PyVal)) (max_wait_time poll_interval : Int) :
    GenWaitResult × Nat :=
  let task_id := kwget resp "id" PyVal.none
  if task_id.truthy = false then (GenWaitResult.noTaskId, 0)
  else
    let o := wait_for_completion stub max_wait_time poll_interval
    (GenWaitResult.waited o, o.queries)

/-! ## Artifact download: `FluxClient.download_image` (lines 210-226) -/

/-- An outgoing HTTP GET: target URL and the header list attached to it. -/
structure HttpRequest where
  url : String
  headers : List (String × String)
deriving DecidableEq

/-- An HTTP response: status code and body bytes. -/
structure HttpResponse where
  status_code : Nat
  content : List Nat
deriving DecidableEq

/-- The client headers built in `FluxClient.__init__` (lines 34-37). -/
def flux_headers (api_key : String) : List (String × String) :=
  [("Authorization", "Bearer " ++ api_key), ("Content-Type", "application/json")]

/-- The request issued by `download_image`: `requests.get(image_url)` with no
`headers=` argument, so no header of the client is attached. -/
def download_request (image_url : String) : HttpRequest :=
  { url := image_url, headers := [] }

/-- Outcome of `download_image`: the body bytes, or the `HTTPError` that
`raise_for_status` raises on a 4xx/5xx status. -/
inductive DownloadResult where
  | ok (content : List Nat)
  | httpError (status_code : Nat)
deriving DecidableEq

/-- Embeds `FluxClient.download_image(image_url)` over a network oracle `net`:
issue `download_request`, `raise_for_status` (which raises exactly for
status codes in [400, 600)), else return `response.content`. -/
def download_image (image_url : String) (net : HttpRequest → HttpResponse) :
    DownloadResult :=
  let r := net (download_request image_url)
  if 400 ≤ r.status_code ∧ r.status_code < 600 then
    DownloadResult.httpError r.status_code
  else
    DownloadResult.ok r.content

/-! ## Two-attempt multipart submission:
`Sora.create_video_generation_job_with_images` (sora.py lines 44-123) -/

/-- The `crop_bounds` object of an inpaint descriptor (fractions). -/
structure CropBounds where
  left_fraction : Rat
  top_fraction : Rat
  right_fraction : Rat
  bottom_fraction : Rat
deriving DecidableEq

/-- One entry of the `inpaint_items` JSON array. -/
structure InpaintItem where
  frame_index : Nat
  item_type : String
  file_name : String
  crop_bounds : Option CropBounds
deriving DecidableEq

/-- One multipart POST to the video backend: the common form fields, the
inpaint descriptors, and the attached files (re-encoded fresh per attempt). -/
structure SoraRequest where
  prompt : String
  height : Nat
  width : Nat
  n_seconds : Nat
  n_variants : Nat
  model : String
  inpaint_items : List InpaintItem
  files : List String
deriving DecidableEq

/-- A backend response; `ok` is `requests`' `response.ok`
(`status_code < 400`), `body` stands for `response.json()`. -/
structure SoraResponse where
  status_code : Nat
  text : String
  body : String
deriving DecidableEq

/-- The `response.ok` predicate of `requests`: true iff the status code is below 400. -/
def SoraResponse.is_ok (r : SoraResponse) : Bool := r.status_code < 400

/-- The error surfaced when both attempts fail:
`response2.raise_for_status()`. -/
inductive SoraError where
  | submissionRejected (status_code : Nat) (text : String)
deriving DecidableEq

/-- Attempt 1's per-image descriptors (lines 69-78): no `crop_bounds` key. -/
def attempt1_items (image_filenames : List String) : List InpaintItem :=
  image_filenames.map fun filename =>
    { frame_index := 0, item_type := "image", file_name := filename,
      crop_bounds := Option.none }

/-- The explicit full-frame crop bound of the fallback payload
(lines 102-107). -/
def full_frame_bounds : CropBounds :=
  { left_fraction := 0, top_fraction := 0, right_fraction := 1, bottom_fraction := 1 }

/-- Attempt 2's per-image descriptors (lines 97-109): same descriptors plus
the full-frame `crop_bounds` on every entry. -/
def attempt2_items (image_filenames : List String) : List InpaintItem :=
  image_filenames.map fun filename =>
    { frame_index := 0, item_type := "image", file_name := filename,
      crop_bounds := some full_frame_bounds }

/-- The first multipart request (base form fields + `attempt1_items`). -/
def sora_attempt1_request (prompt model : String) (image_filenames : List String)
    (n_seconds height width n_variants : Nat) : SoraRequest :=
  { prompt := prompt, height := height, width := width, n_seconds := n_seconds,
    n_variants := n_variants, model := model,
    inpaint_items := attempt1_items image_filenames, files := image_filenames }

/-- The fallback multipart request (base form fields + `attempt2_items`). -/
def sora_attempt2_request (prompt model : String) (image_filenames : List String)
    (n_seconds height width n_variants : Nat) : SoraRequest :=
  { prompt := prompt, height := height, width := width, n_seconds := n_seconds,
    n_variants := n_variants, model := model,
    inpaint_items := attempt2_items image_filenames, files := image_filenames }

/-- Embeds `Sora.create_video_generation_job_with_images` over a network oracle:
POST attempt 1; if `response.ok` return its json; otherwise POST the
fallback payload once; if that is `ok` return its json, else
`response2.raise_for_status()` (raising for 4xx/5xx).  The second component
is the trace of requests actually sent. -/
def create_video_generation_job_with_images (prompt model : String)
    (image_filenames : List String) (n_seconds height width n_variants : Nat)
    (net : SoraRequest → SoraResponse) :
    Except SoraError String × List SoraRequest :=
  let req1 := sora_attempt1_request prompt model image_filenames
      n_seconds height width n_variants
  let r1 := net req1
  if r1.is_ok then (Except.ok r1.body, [req1])
  else
    let req2 := sora_attempt2_request prompt model image_filenames
        n_seconds height width n_variants
    let r2 := net req2
    if r2.is_ok then (Except.ok r2.body, [req1, req2])
    else if 400 ≤ r2.status_code ∧ r2.status_code < 600 then
      (Except.error (SoraError.submissionRejected r2.status_code r2.text), [req1, req2])
    else (Except.ok r2.body, [req1, req2])

/-! ## Pipeline dispatcher (spec-modelled)

The dispatcher body (`ImagePipelineService.process_pipeline`, module
`backend/core/image_pipeline.py`) is not among the provided source files;
only its caller `process_image_pipeline` (images.py lines 207-247) is.  It
is therefore modelled from the spec (§4.5, §7, §8). -/

/-- A captured per-stage error: `{stage, message}`. -/
structure StageError where
  stage : String
  message : String
deriving DecidableEq

/-- Outcome of one pipeline stage: success flag plus the captured error. -/
structure StageResult where
  success : Bool
  error : Option StageError
deriving DecidableEq

/-- The aggregated structured response: `generationResult` always present,
`saveResult`/`analysisResult` present iff their stage ran. -/
structure PipelineResponse where
  generation : StageResult
  save : Option StageResult
  analysis : Option StageResult
deriving DecidableEq

/-- Modelled from the spec: `ImagePipelineService.process_pipeline` (module
`backend/core/image_pipeline.py`, absent from the provided sources).  Per
spec §4.5/§7: Generation is mandatory; its failure short-circuits Save and
Analysis; Save runs iff `saveOptions.enabled` and Generation succeeded;
Analysis runs iff `analysisOptions.enabled` and Generation succeeded; every
stage's error is captured as a `{stage, message}` field and the dispatcher
always returns a structured `PipelineResponse` (it never raises).  The
collaborator outcomes are passed in as `Except` stubs. -/
def process_pipeline (save_enabled analysis_enabled : Bool)
    (generation_run : Except String String)
    (save_run : Except String Unit) (analysis_run : Except String Unit) :
    PipelineResponse :=
  match generation_run with
  | Except.error m =>
      { generation := { success := false, error := some ⟨"generation", m⟩ },
        save := Option.none, analysis := Option.none }
  | Except.ok _ =>
      { generation := { success := true, error := Option.none },
        save :=
          if save_enabled then
            some (match save_run with
              | Except.ok _ => { success := true, error := Option.none }
              | Except.error m => { success := false, error := some ⟨"save", m⟩ })
          else Option.none,
        analysis :=
          if analysis_enabled then
            some (match analysis_run with
              | Except.ok _ => { success := true, error := Option.none }
              | Except.error m => { success := false, error := some ⟨"analysis", m⟩ })
          else Option.none }

/-! ## Step lemmas for the polling loop -/

lemma wait_aux_stop (stub : Nat → List (String × PyVal)) (mw p : Int)
    (fuel : Nat) (e : Int) (n : Nat) (h : ¬ e < mw) :
    wait_aux stub mw p fuel e n = ⟨WaitResult.timedOut, n, e⟩ := by
  cases fuel <;> · rw [wait_aux]; rw [if_neg h]

lemma wait_aux_ready_step (stub : Nat → List (String × PyVal)) (mw p : Int)
    (f : Nat) (e : Int) (n : Nat) (h : e < mw)
    (hr : kwget (stub n) "status" PyVal.none = PyVal.str "Ready") :
    wait_aux stub mw p (f + 1) e n = ⟨WaitResult.ready (stub n), n + 1, e⟩ := by
  rw [wait_aux]; rw [if_pos h]
  simp [hr]

lemma wait_aux_error_step (stub : Nat → List (String × PyVal)) (mw p : Int)
    (f : Nat) (e : Int) (n : Nat) (h : e < mw)
    (hr : kwget (stub n) "status" PyVal.none = PyVal.str "Error") :
    wait_aux stub mw p (f + 1) e n =
      ⟨WaitResult.backendError (kwget (stub n) "error" (PyVal.str "Unknown error")),
        n + 1, e⟩ := by
  rw [wait_aux]; rw [if_pos h]
  have hne : ¬ kwget (stub n) "status" PyVal.none = PyVal.str "Ready" := by
    rw [hr]; decide
  simp [hr, hne]

lemma wait_aux_cont (stub : Nat → List (String × PyVal)) (mw p : Int)
    (f : Nat) (e : Int) (n : Nat) (h : e < mw)
    (hnt : nonterminalStatus (stub n)) :
    wait_aux stub mw p (f + 1) e n = wait_aux stub mw p f (e + p) (n + 1) := by
  conv_lhs => rw [wait_aux]
  rw [if_pos h]
  simp only [if_neg hnt.1, if_neg hnt.2]

/-- With a positive poll interval and fuel exceeding the remaining wait, the
fuel is never exhausted: starting fuel `max_wait_time.toNat + 1` makes
`diverged` unreachable in `wait_for_completion`. -/
lemma wait_aux_ne_diverged (stub : Nat → List (String × PyVal)) (mw p : Int)
    (hp : 1 ≤ p) :
    ∀ (fuel : Nat) (e : Int) (n : Nat), mw < e + fuel →
      (wait_aux stub mw p fuel e n).result ≠ WaitResult.diverged := by
  intro fuel
  induction fuel with
  | zero =>
    intro e n hlt
    rw [wait_aux_stop stub mw p 0 e n (by simpa using le_of_lt hlt)]
    simp
  | succ f ih =>
    intro e n hlt
    by_cases hc : e < mw
    · by_cases hr : kwget (stub n) "status" PyVal.none = PyVal.str "Ready"
      · rw [wait_aux_ready_step stub mw p f e n hc hr]; simp
      · by_cases he : kwget (stub n) "status" PyVal.none = PyVal.str "Error"
        · rw [wait_aux_error_step stub mw p f e n hc he]; simp
        · rw [wait_aux_cont stub mw p f e n hc ⟨hr, he⟩]
          apply ih
          push_cast at hlt ⊢
          linarith
    · rw [wait_aux_stop stub mw p (f + 1) e n hc]; simp

/-- If the first `k` query responses are non-terminal and the `k`-th (from
`j`) is `Ready`, reached within the wait budget, the loop returns that
response after exactly `k + 1` further queries. -/
lemma wait_aux_first_ready (stub : Nat → List (String × PyVal)) (mw p : Int)
    (hp : 1 ≤ p) (k : Nat) :
    ∀ (fuel j : Nat) (e : Int), k < fuel →
      (∀ m, m < k → nonterminalStatus (stub (j + m))) →
      kwget (stub (j + k)) "status" PyVal.none = PyVal.str "Ready" →
      e + (k : Int) * p < mw →
      wait_aux stub mw p fuel e j =
        ⟨WaitResult.ready (stub (j + k)), j + k + 1, e + (k : Int) * p⟩ := by
  induction k with
  | zero =>
    intro fuel j e hfuel _ hready hbudget
    obtain ⟨f, rfl⟩ := Nat.exists_eq_succ_of_ne_zero (Nat.pos_iff_ne_zero.mp hfuel)
    have he : e < mw := by simpa using hbudget
    rw [wait_aux_ready_step stub mw p f e j he (by simpa using hready)]
    simp
  | succ k ih =>
    intro fuel j e hfuel hnt hready hbudget
    obtain ⟨f, rfl⟩ : ∃ f, fuel = f + 1 := ⟨fuel - 1, by omega⟩
    have hkp : (0 : Int) < ((k : Int) + 1) * p := by positivity
    have he : e < mw := by push_cast at hbudget; nlinarith
    have h0 := hnt 0 (Nat.succ_pos k)
    rw [wait_aux_cont stub mw p f e j he (by simpa using h0)]
    have hres := ih f (j + 1) (e + p) (Nat.lt_of_succ_lt_succ hfuel)
      (fun m hm => by
        have := hnt (m + 1) (Nat.succ_lt_succ hm)
        have harith : j + (m + 1) = j + 1 + m := by omega
        rwa [harith] at this)
      (by
        have harith : j + (k + 1) = j + 1 + k := by omega
        rwa [harith] at hready)
      (by push_cast at hbudget ⊢; linarith)
    rw [hres]
    have h1 : j + 1 + k = j + (k + 1) := by omega
    have h2 : e + p + (k : Int) * p = e + ((k : Int) + 1) * p := by ring
    rw [h1, h2]
    push_cast
    ring_nf

/-- Same as `wait_aux_first_ready` for a terminal `Error` response: the loop
raises with the backend error detail right after that query. -/
lemma wait_aux_first_error (stub : Nat → List (String × PyVal)) (mw p : Int)
    (hp : 1 ≤ p) (k : Nat) :
    ∀ (fuel j : Nat) (e : Int), k < fuel →
      (∀ m, m < k → nonterminalStatus (stub (j + m))) →
      kwget (stub (j + k)) "status" PyVal.none = PyVal.str "Error" →
      e + (k : Int) * p < mw →
      wait_aux stub mw p fuel e j =
        ⟨WaitResult.backendError (kwget (stub (j + k)) "error" (PyVal.str "Unknown error")),
          j + k + 1, e + (k : Int) * p⟩ := by
  induction k with
  | zero =>
    intro fuel j e hfuel _ herr hbudget
    obtain ⟨f, rfl⟩ := Nat.exists_eq_succ_of_ne_zero (Nat.pos_iff_ne_zero.mp hfuel)
    have he : e < mw := by simpa using hbudget
    rw [wait_aux_error_step stub mw p f e j he (by simpa using herr)]
    simp
  | succ k ih =>
    intro fuel j e hfuel hnt herr hbudget
    obtain ⟨f, rfl⟩ : ∃ f, fuel = f + 1 := ⟨fuel - 1, by omega⟩
    have hkp : (0 : Int) < ((k : Int) + 1) * p := by positivity
    have he : e < mw := by push_cast at hbudget; nlinarith
    have h0 := hnt 0 (Nat.succ_pos k)
    rw [wait_aux_cont stub mw p f e j he (by simpa using h0)]
    have hres := ih f (j + 1) (e + p) (Nat.lt_of_succ_lt_succ hfuel)
      (fun m hm => by
        have := hnt (m + 1) (Nat.succ_lt_succ hm)
        have harith : j + (m + 1) = j + 1 + m := by omega
        rwa [harith] at this)
      (by
        have harith : j + (k + 1) = j + 1 + k := by omega
        rwa [harith] at herr)
      (by push_cast at hbudget ⊢; linarith)
    rw [hres]
    have h1 : j + 1 + k = j + (k + 1) := by omega
    have h2 : e + p + (k : Int) * p = e + ((k : Int) + 1) * p := by ring
    rw [h1, h2]
    push_cast
    ring_nf

/-- Every query happens strictly inside the wait budget: the total number of
queries made is bounded by the number already made plus
`⌈(max_wait - elapsed) / poll⌉`. -/
lemma wait_aux_queries_le (stub : Nat → List (String × PyVal)) (mw p : Int)
    (hp : 1 ≤ p) :
    ∀ (fuel : Nat) (e : Int) (n : Nat),
      (wait_aux stub mw p fuel e n).queries ≤ n + ((mw - e + p - 1) / p).toNat := by
  intro fuel
  induction fuel with
  | zero =>
    intro e n
    by_cases hc : e < mw
    · rw [wait_aux]; rw [if_pos hc]; simp
    · rw [wait_aux_stop stub mw p 0 e n hc]; simp
  | succ f ih =>
    intro e n
    by_cases hc : e < mw
    · have hp0 : (0 : Int) < p := by linarith
      have h1 : 1 ≤ (mw - e + p - 1) / p := by
        rw [Int.le_ediv_iff_mul_le hp0]
        linarith
      by_cases hr : kwget (stub n) "status" PyVal.none = PyVal.str "Ready"
      · rw [wait_aux_ready_step stub mw p f e n hc hr]; simp; omega
      · by_cases he : kwget (stub n) "status" PyVal.none = PyVal.str "Error"
        · rw [wait_aux_error_step stub mw p f e n hc he]; simp; omega
        · rw [wait_aux_cont stub mw p f e n hc ⟨hr, he⟩]
          have hih := ih (e + p) (n + 1)
          have hinner : mw - (e + p) + p - 1 = mw - e - 1 := by ring
          rw [hinner] at hih
          have hdiv_nonneg : 0 ≤ (mw - e - 1) / p :=
            Int.ediv_nonneg (by linarith) (by linarith)
          have hsucc : (mw - e + p - 1) / p = (mw - e - 1) / p + 1 := by
            have : mw - e + p - 1 = (mw - e - 1) + 1 * p := by ring
            rw [this, Int.add_mul_ediv_right _ _ (by linarith : p ≠ 0)]
          rw [hsucc]
          omega
    · rw [wait_aux_stop stub mw p (f + 1) e n hc]; simp

/-- Top-level query bound: `wait_for_completion` never makes more than
`⌈max_wait / poll⌉ + 1` status queries (for a positive poll interval). -/
lemma wait_queries_le (stub : Nat → List (String × PyVal)) (mw p : Int)
    (hp : 1 ≤ p) :
    (wait_for_completion stub mw p).queries ≤ ((mw + p - 1) / p).toNat + 1 := by
  have h := wait_aux_queries_le stub mw p hp (mw.toNat + 1) 0 0
  rw [wait_for_completion]
  have harith : mw - 0 + p - 1 = mw + p - 1 := by ring
  rw [harith] at h
  omega

/-! ## Claim theorems for the polling loop -/

/-- C3: with a backend stub whose first two responses are non-terminal and
whose third is `Ready`, `wait_for_completion` returns success after exactly
3 status queries with the clock at `2 * poll_interval` (hence at least
`2 * poll_interval` elapsed); and for every run the number of status
queries never exceeds `⌈max_wait / poll⌉ + 1`. -/
theorem wait_ready_on_third_query (stub : Nat → List (String × PyVal))
    (mw p : Int) (hp : 1 ≤ p) :
    (nonterminalStatus (stub 0) → nonterminalStatus (stub 1) →
      kwget (stub 2) "status" PyVal.none = PyVal.str "Ready" → 2 * p < mw →
      wait_for_completion stub mw p = ⟨WaitResult.ready (stub 2), 3, 2 * p⟩) ∧
    (wait_for_completion stub mw p).queries ≤ ((mw + p - 1) / p).toNat + 1 := by
  constructor
  · intro h0 h1 h2 hbudget
    have hmw3 : (3 : Int) ≤ mw := by linarith
    have hfuel : 2 < mw.toNat + 1 := by omega
    have hnt : ∀ m, m < 2 → nonterminalStatus (stub (0 + m)) := by
      intro m hm
      interval_cases m
      · simpa using h0
      · simpa using h1
    have h := wait_aux_first_ready stub mw p hp 2 (mw.toNat + 1) 0 0 hfuel hnt
      (by simpa using h2) (by push_cast; linarith)
    rw [wait_for_completion, h]
    norm_num
  · exact wait_queries_le stub mw p hp

/-- C3 witness: a concrete stub that is `Pending` twice then `Ready`, with
`max_wait = 300` and `poll_interval = 5`, yields the `Ready` outcome after
exactly 3 queries at clock 10 = 2 × 5. -/
theorem wait_ready_on_third_query_witness :
    wait_for_completion
        (fun n => if n < 2 then [("status", PyVal.str "Pending")]
                  else [("status", PyVal.str "Ready")]) 300 5 =
      ⟨WaitResult.ready [("status", PyVal.str "Ready")], 3, 10⟩ :=
  (wait_ready_on_third_query
      (fun n => if n < 2 then [("status", PyVal.str "Pending")]
                else [("status", PyVal.str "Ready")]) 300 5 (by decide)).1
    (by decide) (by decide) (by decide) (by decide)

/-- C4: when `0 < max_wait < poll_interval` and the backend never reports a
terminal status, `wait_for_completion` makes exactly one status query and
then raises `TimeoutError`. -/
theorem wait_timeout_single_query (stub : Nat → List (String × PyVal))
    (mw p : Int) (hpos : 0 < mw) (hlt : mw < p)
    (hnt : ∀ n, nonterminalStatus (stub n)) :
    wait_for_completion stub mw p = ⟨WaitResult.timedOut, 1, p⟩ := by
  rw [wait_for_completion]
  rw [wait_aux_cont stub mw p mw.toNat 0 0 hpos (hnt 0)]
  rw [wait_aux_stop stub mw p mw.toNat (0 + p) 1 (by omega)]
  norm_num

/-- C4 witness: `max_wait = 3 < 5 = poll_interval` with an always-`Pending`
stub times out after exactly one query. -/
theorem wait_timeout_single_query_witness :
    wait_for_completion (fun _ => [("status", PyVal.str "Pending")]) 3 5 =
      ⟨WaitResult.timedOut, 1, 5⟩ :=
  wait_timeout_single_query (fun _ => [("status", PyVal.str "Pending")]) 3 5
    (by decide) (by decide)
    (fun n => by show nonterminalStatus [("status", PyVal.str "Pending")]; decide)

/-- C5: if the `k`-th status query (the first terminal one, reached inside
the wait budget) reports `Error`, the poller immediately raises with the
backend-supplied error detail (`status.get("error", "Unknown error")`) and
makes no further queries: the total query count is exactly `k + 1`. -/
theorem wait_error_is_terminal (stub : Nat → List (String × PyVal))
    (mw p : Int) (hp : 1 ≤ p) (k : Nat)
    (hbefore : ∀ m, m < k → nonterminalStatus (stub m))
    (herr : kwget (stub k) "status" PyVal.none = PyVal.str "Error")
    (hreach : (k : Int) * p < mw) :
    wait_for_completion stub mw p =
      ⟨WaitResult.backendError (kwget (stub k) "error" (PyVal.str "Unknown error")),
        k + 1, (k : Int) * p⟩ := by
  have hkmw : (k : Int) < mw := by nlinarith
  have hfuel : k < mw.toNat + 1 := by omega
  have h := wait_aux_first_error stub mw p hp k (mw.toNat + 1) 0 0 hfuel
    (by simpa using hbefore) (by simpa using herr) (by simpa using hreach)
  rw [wait_for_completion, h]
  norm_num

/-- C5 witness: a stub that is `Pending` once and then reports `Error` with
detail "boom" makes the poller raise right after the second query. -/
theorem wait_error_is_terminal_witness :
    wait_for_completion
        (fun n => if n = 0 then [("status", PyVal.str "Pending")]
                  else [("status", PyVal.str "Error"), ("error", PyVal.str "boom")])
        10 2 =
      ⟨WaitResult.backendError (PyVal.str "boom"), 2, 2⟩ :=
  wait_error_is_terminal
    (fun n => if n = 0 then [("status", PyVal.str "Pending")]
              else [("status", PyVal.str "Error"), ("error", PyVal.str "boom")])
    10 2 (by decide) 1 (fun m hm => by interval_cases m; decide) (by decide)
    (by decide)

/-- C10: for every `max_wait_time ≤ 0` the `while` guard fails immediately:
`wait_for_completion` raises `TimeoutError` having made zero status
queries, for any stub and any poll interval. -/
theorem wait_nonpositive_max_wait_zero_queries
    (stub : Nat → List (String × PyVal)) (mw p : Int) (hmw : mw ≤ 0) :
    wait_for_completion stub mw p = ⟨WaitResult.timedOut, 0, 0⟩ := by
  rw [wait_for_completion]
  exact wait_aux_stop stub mw p (mw.toNat + 1) 0 0 (by omega)

/-- C10 witness: `max_wait_time = -3` times out with zero queries even
against an immediately-`Ready` stub. -/
theorem wait_nonpositive_max_wait_zero_queries_witness :
    wait_for_completion (fun _ => [("status", PyVal.str "Ready")]) (-3) 5 =
      ⟨WaitResult.timedOut, 0, 0⟩ :=
  wait_nonpositive_max_wait_zero_queries
    (fun _ => [("status", PyVal.str "Ready")]) (-3) 5 (by decide)

/-! ## Claim theorems for coordinator and download -/

/-- C7: when the submission response's `id` is absent or the empty string,
`generate_and_wait` raises "No task ID returned from Flux API" with zero
status queries made — before any polling occurs. -/
theorem generate_and_wait_no_task_id (resp : List (String × PyVal))
    (stub : Nat → List (String × PyVal)) (max_wait_time poll_interval : Int)
    (hid : kwget resp "id" PyVal.none = PyVal.none ∨
      kwget resp "id" PyVal.none = PyVal.str "") :
    generate_and_wait resp stub max_wait_time poll_interval =
      (GenWaitResult.noTaskId, 0) := by
  rcases hid with h | h <;>
    simp [generate_and_wait, h, PyVal.truthy]

/-- C7 witness: a submission response without an `id` key fails with
`NoTaskId` and makes no status query, even against a `Ready` stub. -/
theorem generate_and_wait_no_task_id_witness :
    generate_and_wait [("status", PyVal.str "Queued")]
        (fun _ => [("status", PyVal.str "Ready")]) 300 5 =
      (GenWaitResult.noTaskId, 0) :=
  generate_and_wait_no_task_id [("status", PyVal.str "Queued")]
    (fun _ => [("status", PyVal.str "Ready")]) 300 5 (Or.inl rfl)

/-- C6 counterexample: `download_image` issues `requests.get(image_url)`
with no `headers=` argument, so the GET carries no `Authorization` header
even though the client's header set has one; moreover a non-2xx status
outside [400, 600) (here 304) returns bytes instead of failing.  This
falsifies the claim that the download is authenticated. -/
theorem download_image_unauthenticated_counterexample :
    (download_request "https://api.bfl.ml/img.jpg").headers.lookup "Authorization" =
      Option.none ∧
    (flux_headers "k").lookup "Authorization" = some "Bearer k" ∧
    download_image "https://api.bfl.ml/img.jpg" (fun _ => ⟨304, [7]⟩) =
      DownloadResult.ok [7] :=
  ⟨rfl, rfl, rfl⟩

/-- C6 amended: the final-artifact fetch is an unauthenticated GET of the
result URL (the request carries no headers at all); a 4xx/5xx response
raises (`raise_for_status`) rather than returning bytes; a 2xx response
returns exactly the response body bytes. -/
theorem download_image_amended (image_url : String)
    (net : HttpRequest → HttpResponse) :
    (download_request image_url).headers = [] ∧
    (200 ≤ (net (download_request image_url)).status_code →
      (net (download_request image_url)).status_code < 300 →
      download_image image_url net =
        DownloadResult.ok (net (download_request image_url)).content) ∧
    (400 ≤ (net (download_request image_url)).status_code →
      (net (download_request image_url)).status_code < 600 →
      download_image image_url net =
        DownloadResult.httpError (net (download_request image_url)).status_code) := by
  refine ⟨rfl, ?_, ?_⟩
  · intro h200 h300
    rw [download_image]
    rw [if_neg (by omega)]
  · intro h400 h600
    rw [download_image]
    rw [if_pos ⟨h400, h600⟩]

/-- C6 amended witness: a 200 response with body `[1, 2, 3]` is returned
as-is. -/
theorem download_image_amended_witness :
    download_image "https://api.bfl.ml/img.jpg" (fun _ => ⟨200, [1, 2, 3]⟩) =
      DownloadResult.ok [1, 2, 3] :=
  (download_image_amended "https://api.bfl.ml/img.jpg"
      (fun _ => ⟨200, [1, 2, 3]⟩)).2.1 (by decide) (by decide)

/-! ## Claim theorems for the payload builder -/

lemma mem_stripNone {l : List (String × PyVal)} {k : String} {v : PyVal}
    (hmem : (k, v) ∈ l) (hv : v ≠ PyVal.none) : (k, v) ∈ stripNone l :=
  List.mem_filter.mpr ⟨hmem, by simpa using hv⟩

lemma stripNone_no_none {l : List (String × PyVal)} {k : String} {v : PyVal}
    (h : (k, v) ∈ stripNone l) : v ≠ PyVal.none := by
  have := (List.mem_filter.mp h).2
  simpa using this

/-- If every value stored under `k` in `l` is `None`, the stripped payload
has no `k` key at all. -/
lemma lookup_stripNone_eq_none (k : String) (l : List (String × PyVal))
    (h : ∀ v, (k, v) ∈ l → v = PyVal.none) :
    (stripNone l).lookup k = Option.none := by
  induction l with
  | nil => rfl
  | cons a l ih =>
    obtain ⟨k1, v1⟩ := a
    rw [stripNone, List.filter_cons]
    by_cases hv : v1 = PyVal.none
    · rw [hv]
      rw [if_neg (by simp)]
      exact ih fun v hvmem => h v (List.mem_cons_of_mem _ hvmem)
    · rw [if_pos (by simpa using hv)]
      have hk1 : k1 ≠ k := by
        intro hk
        exact hv (h v1 (hk ▸ List.mem_cons_self _ _))
      have hbeq : (k == k1) = false := beq_eq_false_iff_ne.mpr (Ne.symm hk1)
      simp only [List.lookup, hbeq]
      exact ih fun v hvmem => h v (List.mem_cons_of_mem _ hvmem)

/-- The webhook block only ever contributes the two webhook keys. -/
lemma mem_webhookFields (kwargs : List (String × PyVal)) (k : String) (v : PyVal)
    (h : (k, v) ∈ webhookFields kwargs) :
    k = "webhook_url" ∨ k = "webhook_secret" := by
  rw [webhookFields] at h
  rcases List.mem_append.mp h with h1 | h1 <;> split at h1 <;> simp_all

/-- C1 counterexample: for `flux-kontext` with no `image_prompt` supplied,
`FluxClient.generate_image` does not fail at all — it builds and returns a
payload from which the `image_prompt` key has been silently dropped,
instead of raising a `MissingRequiredField` error. -/
theorem kontext_missing_image_prompt_counterexample :
    ∃ payload, generate_image "edit the sky" "flux-kontext" [] =
        Except.ok payload ∧
      payload.lookup "image_prompt" = Option.none ∧
      payload.lookup "prompt" = some (PyVal.str "edit the sky") :=
  ⟨_, rfl, rfl, rfl⟩

/-- C1 amended: the builder performs no mandatory-field validation.  For
`flux-kontext` with `image_prompt` absent from the parameter bag, the build
succeeds and emits a payload that simply lacks the `image_prompt` key (its
`None` value is stripped); the only failure the builder can produce is
`InvalidModel` for an unrecognized model name. -/
theorem kontext_missing_image_prompt_amended (prompt : String)
    (kwargs : List (String × PyVal))
    (habsent : kwargs.lookup "image_prompt" = Option.none) :
    ∃ payload, generate_image prompt "flux-kontext" kwargs = Except.ok payload ∧
      payload.lookup "image_prompt" = Option.none := by
  refine ⟨stripNone (fluxKontextFields prompt kwargs ++ webhookFields kwargs),
    by simp [generate_image], ?_⟩
  apply lookup_stripNone_eq_none
  intro v hv
  rcases List.mem_append.mp hv with h1 | h1
  · simp only [fluxKontextFields, List.mem_cons, List.not_mem_nil, or_false,
      Prod.mk.injEq] at h1
    rcases h1 with ⟨h, _⟩ | ⟨h, _⟩ | ⟨h, _⟩ | ⟨h, _⟩ | ⟨h, _⟩ | ⟨h, _⟩ |
      ⟨h, _⟩ | ⟨h, hval⟩ | ⟨h, _⟩ <;> first
      | (exact absurd h (by decide))
      | (rw [hval, kwget, habsent])
  · rcases mem_webhookFields kwargs "image_prompt" v h1 with h | h <;>
      exact absurd h (by decide)

/-- C1 amended witness: with an empty parameter bag the build for
`flux-kontext` succeeds and its payload has no `image_prompt` key. -/
theorem kontext_missing_image_prompt_amended_witness :
    ∃ payload, generate_image "edit" "flux-kontext" [] = Except.ok payload ∧
      payload.lookup "image_prompt" = Option.none :=
  kontext_missing_image_prompt_amended "edit" [] rfl

/-- C8: for every recognized model variant and every parameter bag, the
emitted payload never contains a `None` value (line 115 strips them), and
the backend-specific defaults are applied whenever the field is absent from
the bag: `width`/`height` 1024 (flux-pro and flux-kontext),
`safety_tolerance` 2 and `output_format` "jpeg" (all variants), and
`aspect_ratio` "16:9" (flux-pro-ultra). -/
lemma generate_image_pro_eq (prompt : String) (kwargs : List (String × PyVal)) :
    generate_image prompt "flux-pro" kwargs =
      Except.ok (stripNone (fluxProFields prompt kwargs ++ webhookFields kwargs)) := rfl

lemma generate_image_ultra_eq (prompt : String) (kwargs : List (String × PyVal)) :
    generate_image prompt "flux-pro-ultra" kwargs =
      Except.ok (stripNone (fluxUltraFields prompt kwargs ++ webhookFields kwargs)) := rfl

lemma generate_image_kontext_eq (prompt : String) (kwargs : List (String × PyVal)) :
    generate_image prompt "flux-kontext" kwargs =
      Except.ok (stripNone (fluxKontextFields prompt kwargs ++ webhookFields kwargs)) := rfl

theorem generate_image_no_null_and_defaults (prompt model : String)
    (kwargs : List (String × PyVal)) :
    (∀ payload k v, generate_image prompt model kwargs = Except.ok payload →
      (k, v) ∈ payload → v ≠ PyVal.none) ∧
    (∀ payload, model = "flux-pro" ∨ model = "flux-kontext" →
      generate_image prompt model kwargs = Except.ok payload →
      (kwargs.lookup "width" = Option.none → ("width", PyVal.int 1024) ∈ payload) ∧
      (kwargs.lookup "height" = Option.none → ("height", PyVal.int 1024) ∈ payload)) ∧
    (∀ payload, generate_image prompt model kwargs = Except.ok payload →
      (kwargs.lookup "safety_tolerance" = Option.none →
        ("safety_tolerance", PyVal.int 2) ∈ payload) ∧
      (kwargs.lookup "output_format" = Option.none →
        ("output_format", PyVal.str "jpeg") ∈ payload)) ∧
    (∀ payload, model = "flux-pro-ultra" →
      generate_image prompt model kwargs = Except.ok payload →
      kwargs.lookup "aspect_ratio" = Option.none →
      ("aspect_ratio", PyVal.str "16:9") ∈ payload) := by
  refine ⟨?_, ?_, ?_, ?_⟩
  · intro payload k v hok hmem
    rw [generate_image] at hok
    split_ifs at hok <;> cases hok <;> exact stripNone_no_none hmem
  · intro payload hmodel hok
    rcases hmodel with rfl | rfl
    · rw [generate_image_pro_eq prompt kwargs] at hok
      cases hok
      constructor <;>
        · intro habsent
          refine mem_stripNone (List.mem_append_left _ ?_) (by decide)
          simp [fluxProFields, kwget, habsent]
    · rw [generate_image_kontext_eq prompt kwargs] at hok
      cases hok
      constructor <;>
        · intro habsent
          refine mem_stripNone (List.mem_append_left _ ?_) (by decide)
          simp [fluxKontextFields, kwget, habsent]
  · intro payload hok
    rw [generate_image] at hok
    split_ifs at hok <;> cases hok <;>
      (constructor <;>
        · intro habsent
          refine mem_stripNone (List.mem_append_left _ ?_) (by decide)
          simp [fluxProFields, fluxUltraFields, fluxKontextFields, kwget, habsent])
  · intro payload hmodel hok habsent
    subst hmodel
    rw [generate_image_ultra_eq prompt kwargs] at hok
    cases hok
    refine mem_stripNone (List.mem_append_left _ ?_) (by decide)
    simp [fluxUltraFields, kwget, habsent]

/-- C8 witness: with an empty parameter bag the flux-pro payload contains
the default width 1024 (and the build succeeds). -/
theorem generate_image_no_null_and_defaults_witness :
    ("width", PyVal.int 1024) ∈
      stripNone (fluxProFields "a cat" [] ++ webhookFields []) :=
  ((generate_image_no_null_and_defaults "a cat" "flux-pro" []).2.1
    (stripNone (fluxProFields "a cat" [] ++ webhookFields []))
    (Or.inl rfl) rfl).1 rfl

/-! ## Claim theorems for the video backend and the dispatcher -/

/-- C2: the two-attempt fallback protocol of
`Sora.create_video_generation_job_with_images`.  Attempt 1's descriptors
omit crop bounds; iff attempt 1 is rejected, exactly one retry is made and
every descriptor of the retry carries the full-frame crop bound
(0.0, 0.0, 1.0, 1.0); a successful attempt 1 is returned with no second
request; when attempt 2 also fails its error (not attempt 1's) is raised;
at most two requests are ever sent. -/
theorem sora_two_attempt_fallback (prompt model : String)
    (image_filenames : List String) (n_seconds height width n_variants : Nat)
    (net : SoraRequest → SoraResponse)
    (req1 req2 : SoraRequest)
    (hreq1 : req1 = sora_attempt1_request prompt model image_filenames
      n_seconds height width n_variants)
    (hreq2 : req2 = sora_attempt2_request prompt model image_filenames
      n_seconds height width n_variants) :
    (∀ it ∈ req1.inpaint_items, it.crop_bounds = Option.none) ∧
    ((net req1).is_ok = true →
      create_video_generation_job_with_images prompt model image_filenames
          n_seconds height width n_variants net =
        (Except.ok (net req1).body, [req1])) ∧
    ((net req1).is_ok = false →
      (create_video_generation_job_with_images prompt model image_filenames
          n_seconds height width n_variants net).2 = [req1, req2] ∧
      ∀ it ∈ req2.inpaint_items, it.crop_bounds = some full_frame_bounds) ∧
    ((net req1).is_ok = false → (net req2).is_ok = false →
      (net req2).status_code < 600 →
      (create_video_generation_job_with_images prompt model image_filenames
          n_seconds height width n_variants net).1 =
        Except.error (SoraError.submissionRejected (net req2).status_code
          (net req2).text)) ∧
    (create_video_generation_job_with_images prompt model image_filenames
        n_seconds height width n_variants net).2.length ≤ 2 := by
  subst hreq1 hreq2
  refine ⟨?_, ?_, ?_, ?_, ?_⟩
  · intro it hit
    simp only [sora_attempt1_request, attempt1_items, List.mem_map] at hit
    obtain ⟨f, _, rfl⟩ := hit
    rfl
  · intro hok
    rw [create_video_generation_job_with_images]
    simp only [hok, if_pos]
  · intro hfail
    rw [create_video_generation_job_with_images]
    simp only [hfail, Bool.false_eq_true, if_false]
    refine ⟨by split_ifs <;> rfl, ?_⟩
    intro it hit
    simp only [sora_attempt2_request, attempt2_items, List.mem_map] at hit
    obtain ⟨f, _, rfl⟩ := hit
    rfl
  · intro hfail1 hfail2 hcode
    rw [create_video_generation_job_with_images]
    simp only [hfail1, hfail2, Bool.false_eq_true, if_false]
    have h400 : 400 ≤ (net (sora_attempt2_request prompt model image_filenames
        n_seconds height width n_variants)).status_code := by
      have := hfail2
      rw [SoraResponse.is_ok] at this
      simpa using Nat.le_of_not_lt (by simpa using this)
    rw [if_pos ⟨h400, hcode⟩]
  · rw [create_video_generation_job_with_images]
    by_cases h1 : (net (sora_attempt1_request prompt model image_filenames
        n_seconds height width n_variants)).is_ok = true
    · simp [h1]
    · simp only [h1, Bool.false_eq_true, if_false]
      split_ifs <;> simp

/-- C2 witness: a stub backend rejecting the crop-free attempt (HTTP 400)
and accepting the crop-bound attempt returns attempt 2's task body after
exactly two requests, the second of which carries full-frame crop bounds on
every image descriptor. -/
theorem sora_two_attempt_fallback_witness :
    (∀ it ∈ (sora_attempt2_request "a video" "sora" ["a.jpg", "b.jpg"]
        5 480 854 1).inpaint_items, it.crop_bounds = some full_frame_bounds) ∧
    (create_video_generation_job_with_images "a video" "sora"
        ["a.jpg", "b.jpg"] 5 480 854 1
        (fun r => if r.inpaint_items.all (fun it => it.crop_bounds.isNone)
          then ⟨400, "crop bounds required", "t1"⟩
          else ⟨201, "", "task-2"⟩)).2 =
      [sora_attempt1_request "a video" "sora" ["a.jpg", "b.jpg"] 5 480 854 1,
       sora_attempt2_request "a video" "sora" ["a.jpg", "b.jpg"] 5 480 854 1] := by
  have h := (sora_two_attempt_fallback "a video" "sora" ["a.jpg", "b.jpg"]
      5 480 854 1
      (fun r => if r.inpaint_items.all (fun it => it.crop_bounds.isNone)
        then ⟨400, "crop bounds required", "t1"⟩
        else ⟨201, "", "task-2"⟩)
      (sora_attempt1_request "a video" "sora" ["a.jpg", "b.jpg"] 5 480 854 1)
      (sora_attempt2_request "a video" "sora" ["a.jpg", "b.jpg"] 5 480 854 1)
      rfl rfl).2.2.1 (by decide)
  exact ⟨h.2, h.1⟩

/-- C9 (spec-modelled): the dispatcher is a total function into
`PipelineResponse` — it cannot raise past its boundary — and every stage
failure is captured as a `{stage, message}` field: a Generation failure
yields a structured response with the generation error recorded and no
Save/Analysis results; after a Generation success, Save/Analysis failures
are recorded in their own fields with their stage names. -/
theorem process_pipeline_structured_errors (save_enabled analysis_enabled : Bool)
    (generation_run : Except String String)
    (save_run analysis_run : Except String Unit) :
    (∀ m, generation_run = Except.error m →
      process_pipeline save_enabled analysis_enabled generation_run
          save_run analysis_run =
        ⟨⟨false, some ⟨"generation", m⟩⟩, Option.none, Option.none⟩) ∧
    (∀ a, generation_run = Except.ok a →
      (process_pipeline save_enabled analysis_enabled generation_run
          save_run analysis_run).generation = ⟨true, Option.none⟩ ∧
      (save_enabled = true → ∀ m, save_run = Except.error m →
        (process_pipeline save_enabled analysis_enabled generation_run
            save_run analysis_run).save = some ⟨false, some ⟨"save", m⟩⟩) ∧
      (analysis_enabled = true → ∀ m, analysis_run = Except.error m →
        (process_pipeline save_enabled analysis_enabled generation_run
            save_run analysis_run).analysis =
          some ⟨false, some ⟨"analysis", m⟩⟩)) := by
  constructor
  · intro m hm
    rw [hm]
    simp [process_pipeline]
  · intro a ha
    subst ha
    refine ⟨rfl, ?_, ?_⟩
    · intro hse m hm
      subst hm hse
      simp [process_pipeline]
    · intro hae m hm
      subst hm hae
      simp [process_pipeline]

/-- C9 witness: a total Generation failure still produces the structured
response with the generation error captured and no further stages. -/
theorem process_pipeline_structured_errors_witness :
    process_pipeline true true (Except.error "unsafe content")
        (Except.ok ()) (Except.ok ()) =
      ⟨⟨false, some ⟨"generation", "unsafe content"⟩⟩, Option.none, Option.none⟩ :=
  (process_pipeline_structured_errors true true (Except.error "unsafe content")
    (Except.ok ()) (Except.ok ())).1 "unsafe content" rfl

end VisionDesign
